import Mathlib

/-!
Verification of the validation-diagnostics engine in `src/lib.rs`.

The engine wraps an external JSON Schema evaluator (the `jsonschema` crate):
it compiles a schema, drives the evaluator over an instance, classifies each
raw evaluator failure kind into a stable string code, renders a message
(optionally masked), and ships the resulting `ValidationIssue` list across a
wasm boundary.  The evaluator itself is an external collaborator, so it is
modelled abstractly as a value of the `Evaluator` structure; everything the
repository's own code does is embedded faithfully below.
-/

/-- JSON-like value model (serde_json `Value`): null, booleans, numbers,
strings, arrays and string-keyed objects.  Numbers are modelled as integers;
the diagnostics engine never inspects values, so the exact numeric
representation is irrelevant. -/
inductive Value where
  | null : Value
  | bool (b : Bool) : Value
  | num (n : Int) : Value
  | str (s : String) : Value
  | arr (items : List Value) : Value
  | obj (fields : List (String × Value)) : Value

/-- The diagnostic record returned to callers, from `struct ValidationIssue`
in `src/lib.rs`: a JSON-Pointer path, a human-readable message, and a stable
code string. -/
structure ValidationIssue where
  path : String
  message : String
  code : String
deriving DecidableEq

/-- The closed enumeration of raw failure kinds the evaluator can emit,
mirroring `jsonschema::error::ValidationErrorKind` constructor for
constructor (payloads are ignored by the classifier's `..` patterns, so they
are not modelled). -/
inductive ValidationErrorKind where
  | AdditionalItems : ValidationErrorKind
  | AdditionalProperties : ValidationErrorKind
  | AnyOf : ValidationErrorKind
  | BacktrackLimitExceeded : ValidationErrorKind
  | Constant : ValidationErrorKind
  | Contains : ValidationErrorKind
  | ContentEncoding : ValidationErrorKind
  | ContentMediaType : ValidationErrorKind
  | Custom : ValidationErrorKind
  | Enum : ValidationErrorKind
  | ExclusiveMaximum : ValidationErrorKind
  | ExclusiveMinimum : ValidationErrorKind
  | FalseSchema : ValidationErrorKind
  | Format : ValidationErrorKind
  | FromUtf8 : ValidationErrorKind
  | Maximum : ValidationErrorKind
  | MaxItems : ValidationErrorKind
  | MaxLength : ValidationErrorKind
  | MaxProperties : ValidationErrorKind
  | Minimum : ValidationErrorKind
  | MinItems : ValidationErrorKind
  | MinLength : ValidationErrorKind
  | MinProperties : ValidationErrorKind
  | MultipleOf : ValidationErrorKind
  | Not : ValidationErrorKind
  | OneOfMultipleValid : ValidationErrorKind
  | OneOfNotValid : ValidationErrorKind
  | Pattern : ValidationErrorKind
  | PropertyNames : ValidationErrorKind
  | Required : ValidationErrorKind
  | «Type» : ValidationErrorKind
  | UnevaluatedItems : ValidationErrorKind
  | UnevaluatedProperties : ValidationErrorKind
  | UniqueItems : ValidationErrorKind
  | Referencing : ValidationErrorKind
deriving DecidableEq

/-- The Error Classifier: the `match &error.kind` expression inside
`validate_internal` in `src/lib.rs`, transcribed case for case.  It is an
exhaustive match over the closed kind enumeration with no default branch. -/
def codeOfKind : ValidationErrorKind → String
  | .AdditionalItems => "additional_items"
  | .AdditionalProperties => "additional_properties"
  | .AnyOf => "any_of_mismatch"
  | .BacktrackLimitExceeded => "regex_backtrack_limit"
  | .Constant => "const_mismatch"
  | .Contains => "no_match_in_contains"
  | .ContentEncoding => "invalid_content_encoding"
  | .ContentMediaType => "invalid_media_type"
  | .Custom => "custom_error"
  | .Enum => "enum_mismatch"
  | .ExclusiveMaximum => "exclusive_max"
  | .ExclusiveMinimum => "exclusive_min"
  | .FalseSchema => "disallowed_value"
  | .Format => "format_mismatch"
  | .FromUtf8 => "invalid_utf8"
  | .Maximum => "too_large"
  | .MaxItems => "too_many_items"
  | .MaxLength => "too_long"
  | .MaxProperties => "too_many_properties"
  | .Minimum => "too_small"
  | .MinItems => "too_few_items"
  | .MinLength => "too_short"
  | .MinProperties => "too_few_properties"
  | .MultipleOf => "not_a_multiple"
  | .Not => "negated_schema_match"
  | .OneOfMultipleValid => "one_of_multiple_matches"
  | .OneOfNotValid => "one_of_no_match"
  | .Pattern => "pattern_mismatch"
  | .PropertyNames => "invalid_property_name"
  | .Required => "missing_property"
  | .«Type» => "invalid_type"
  | .UnevaluatedItems => "unevaluated_items"
  | .UnevaluatedProperties => "unevaluated_properties"
  | .UniqueItems => "duplicate_items"
  | .Referencing => "schema_reference_error"

/-- The section 4.1 reference taxonomy of the specification, written from the
spec's table (kind described in words, row by row) so it can be compared with
the classifier extracted from the source. -/
def taxonomyCode : ValidationErrorKind → String
  | .AdditionalItems => "additional_items"
  | .AdditionalProperties => "additional_properties"
  | .AnyOf => "any_of_mismatch"
  | .BacktrackLimitExceeded => "regex_backtrack_limit"
  | .Constant => "const_mismatch"
  | .Contains => "no_match_in_contains"
  | .ContentEncoding => "invalid_content_encoding"
  | .ContentMediaType => "invalid_media_type"
  | .Custom => "custom_error"
  | .Enum => "enum_mismatch"
  | .ExclusiveMaximum => "exclusive_max"
  | .ExclusiveMinimum => "exclusive_min"
  | .FalseSchema => "disallowed_value"
  | .Format => "format_mismatch"
  | .FromUtf8 => "invalid_utf8"
  | .Maximum => "too_large"
  | .MaxItems => "too_many_items"
  | .MaxLength => "too_long"
  | .MaxProperties => "too_many_properties"
  | .Minimum => "too_small"
  | .MinItems => "too_few_items"
  | .MinLength => "too_short"
  | .MinProperties => "too_few_properties"
  | .MultipleOf => "not_a_multiple"
  | .Not => "negated_schema_match"
  | .OneOfMultipleValid => "one_of_multiple_matches"
  | .OneOfNotValid => "one_of_no_match"
  | .Pattern => "pattern_mismatch"
  | .PropertyNames => "invalid_property_name"
  | .Required => "missing_property"
  | .«Type» => "invalid_type"
  | .UnevaluatedItems => "unevaluated_items"
  | .UnevaluatedProperties => "unevaluated_properties"
  | .UniqueItems => "duplicate_items"
  | .Referencing => "schema_reference_error"

/-- One raw evaluator failure, as produced by `Validator::iter_errors`: its
kind, the rendered JSON-Pointer path of the failing instance location
(`error.instance_path.to_string()`), the unmasked rendering
(`error.to_string()`), and the masked rendering
(`error.masked().to_string()`). -/
structure ValidationError where
  kind : ValidationErrorKind
  instance_path : String
  rendered : String
  masked : String
deriving DecidableEq

/-- The external Schema Evaluator collaborator (the `jsonschema` crate):
`compile` models `Validator::new` — it either fails with a compilation error
message or yields the compiled validator, modelled as the function taking an
instance to the evaluator's failure list in its natural traversal order
(`iter_errors`). -/
structure Evaluator where
  compile : Value → Except String (Value → List ValidationError)

/-- The Diagnostics Collector `validate_internal` from `src/lib.rs`,
transcribed branch for branch: compile the schema (one synthetic
`invalid_schema` issue at path "/" on failure), otherwise map every raw
evaluator failure to a `ValidationIssue`, choosing the masked or unmasked
rendering by the flag, and return `Ok` exactly when the list is empty. -/
def validate_internal (ev : Evaluator) (inst schema : Value) (mask_values : Bool) :
    Except (List ValidationIssue) Unit :=
  match ev.compile schema with
  | .error e =>
      .error [{ path := "/",
                message := "Schema compilation error: " ++ e,
                code := "invalid_schema" }]
  | .ok iter_errors =>
      let errors : List ValidationIssue :=
        (iter_errors inst).map (fun error =>
          let message := if mask_values then error.masked else error.rendered
          let code := codeOfKind error.kind
          { path := error.instance_path, message := message, code := code })
      if errors.isEmpty then .ok () else .error errors

/-- A host-runtime (JS) value at the wasm boundary: either a well-formed
JSON-shaped value, a plain JS string (the native error channel used by
`JsValue::from_str`), or a host value on which serde deserialization fails
with the given error message. -/
inductive JsValue where
  | jval (v : Value) : JsValue
  | jstr (s : String) : JsValue
  | junk (e : String) : JsValue
deriving Inhabited

/-- Models `serde_wasm_bindgen::from_value`: converts a host value into the
internal value model, failing with a message on malformed boundary input.  A
plain JS string is itself well-formed JSON-shaped data. -/
def from_value : JsValue → Except String Value
  | .jval v => .ok v
  | .jstr s => .ok (.str s)
  | .junk e => .error e

/-- Serde serialization of one `ValidationIssue` into a JSON-shaped host
object with its three string fields. -/
def issueToValue (i : ValidationIssue) : Value :=
  .obj [("path", .str i.path), ("message", .str i.message), ("code", .str i.code)]

/-- The host-value shape of a serialized issue list. -/
def issuesToJs (errors : List ValidationIssue) : JsValue :=
  .jval (.arr (errors.map issueToValue))

/-- Models `serde_wasm_bindgen::to_value(&errors)`.  Serialization of a
vector of plain string-field structs is infallible in the library, which the
model reflects by always returning `ok`; the fallible result type is kept so
the `unwrap` in the source is represented honestly. -/
def to_value (errors : List ValidationIssue) : Except String JsValue :=
  .ok (issuesToJs errors)

/-- Models `Result::unwrap`: a panic (the `none` case) if the value is an
error. -/
def unwrapJs : Except String JsValue → Option JsValue
  | .ok v => some v
  | .error _ => none

/-- The wasm boundary adapter `validate` from `src/lib.rs`, transcribed
statement for statement: deserialize the schema, then the instance (each
`?`-propagating a plain string error), default the mask flag to `false`,
run `validate_internal`, and serialize any issue list back (unwrapping the
serialization result).  The outer `Option` models the possibility of a
panic: `none` is a panic, `some` is a value returned to the caller. -/
def validate (ev : Evaluator) (schema_js instance_js : JsValue)
    (mask_values_js : Option Bool) : Option (Except JsValue Unit) :=
  match from_value schema_js with
  | .error e => some (.error (.jstr ("Schema deserialization error: " ++ e)))
  | .ok schema =>
    match from_value instance_js with
    | .error e => some (.error (.jstr ("Instance deserialization error: " ++ e)))
    | .ok inst =>
      let mask_values := mask_values_js.getD false
      match validate_internal ev inst schema mask_values with
      | .ok _ => some (.ok ())
      | .error errors =>
          match unwrapJs (to_value errors) with
          | some jv => some (.error jv)
          | none => none

/-- Boolean test that the first list is an initial segment of the second. -/
def isInitSegB : List Char → List Char → Bool
  | [], _ => true
  | _ :: _, [] => false
  | a :: as, b :: bs => a == b && isInitSegB as bs

/-- Boolean test that the first list occurs contiguously inside the second. -/
def occursIn (p : List Char) : List Char → Bool
  | [] => isInitSegB p []
  | c :: rest => isInitSegB p (c :: rest) || occursIn p rest

/-- String containment: `strContains s pat` holds when `pat` occurs
contiguously inside `s`. -/
def strContains (s pat : String) : Bool :=
  occursIn pat.data s.data

/-- The (path, code) projection of an issue, the part of the diagnostic that
must be independent of the masking flag. -/
def pathAndCode (i : ValidationIssue) : String × String :=
  (i.path, i.code)

/-- A sample evaluator whose schema compilation always fails. -/
def badSchemaEvaluator : Evaluator :=
  ⟨fun _ => .error "schema is not an object"⟩

/-- A sample evaluator that compiles every schema and raises no failures. -/
def okEvaluator : Evaluator :=
  ⟨fun _ => .ok (fun _ => [])⟩

/-- A sample raw failure: a type mismatch at `/name` whose unmasked rendering
leaks the literal instance value `123` and whose masked rendering does not. -/
def typeErr : ValidationError :=
  { kind := .«Type», instance_path := "/name",
    rendered := "123 is not of type string",
    masked := "value is not of type string" }

/-- A sample raw failure: a minimum violation at `/age`. -/
def minErr : ValidationError :=
  { kind := .Minimum, instance_path := "/age",
    rendered := "17 is less than the minimum of 18",
    masked := "value is less than the minimum of 18" }

/-- A sample evaluator raising two independent failures, matching the spec's
two-violation example instance. -/
def nameAgeEvaluator : Evaluator :=
  ⟨fun _ => .ok (fun _ => [typeErr, minErr])⟩

/-- The spec's two-violation example instance. -/
def nameAgeInstance : Value :=
  .obj [("name", .num 123), ("age", .num 17)]

/-- The issue list the two-failure sample evaluator produces with masking. -/
def maskedIssues : List ValidationIssue :=
  [{ path := "/name", message := "value is not of type string", code := "invalid_type" },
   { path := "/age", message := "value is less than the minimum of 18", code := "too_small" }]

/-- The issue list the two-failure sample evaluator produces unmasked. -/
def unmaskedIssues : List ValidationIssue :=
  [{ path := "/name", message := "123 is not of type string", code := "invalid_type" },
   { path := "/age", message := "17 is less than the minimum of 18", code := "too_small" }]

theorem isInitSegB_refl (p : List Char) : isInitSegB p p = true := by
  induction p with
  | nil => rfl
  | cons c cs ih => simp [isInitSegB, ih]

theorem occursIn_append_right (a p : List Char) : occursIn p (a ++ p) = true := by
  induction a with
  | nil =>
      cases p with
      | nil => rfl
      | cons c cs => simp [occursIn, isInitSegB_refl]
  | cons x xs ih => simp [occursIn, ih]

theorem strContains_append_right (a e : String) :
    strContains (a ++ e) e = true := by
  show occursIn e.data (a ++ e).data = true
  cases a with
  | mk da =>
    cases e with
    | mk de => exact occursIn_append_right da de

theorem validate_internal_error_eq (ev : Evaluator) (inst schema : Value)
    (mask : Bool) (e : String) (h : ev.compile schema = .error e) :
    validate_internal ev inst schema mask =
      .error [{ path := "/",
                message := "Schema compilation error: " ++ e,
                code := "invalid_schema" }] := by
  unfold validate_internal
  rw [h]

theorem validate_internal_ok_nil_eq (ev : Evaluator) (inst schema : Value)
    (mask : Bool) (run : Value → List ValidationError)
    (h : ev.compile schema = .ok run) (hL : run inst = []) :
    validate_internal ev inst schema mask = .ok () := by
  unfold validate_internal
  rw [h]
  show (if ((run inst).map _).isEmpty then _ else _) = _
  rw [hL]
  rfl

theorem validate_internal_ok_cons_eq (ev : Evaluator) (inst schema : Value)
    (mask : Bool) (run : Value → List ValidationError)
    (h : ev.compile schema = .ok run)
    (e : ValidationError) (es : List ValidationError) (hL : run inst = e :: es) :
    validate_internal ev inst schema mask =
      .error ((e :: es).map (fun error =>
        { path := error.instance_path,
          message := if mask then error.masked else error.rendered,
          code := codeOfKind error.kind })) := by
  unfold validate_internal
  rw [h]
  show (if ((run inst).map _).isEmpty then _ else _) = _
  rw [hL]
  rfl

/-- C1: the Error Classifier assigns to every raw failure kind exactly the
code listed in the section 4.1 taxonomy, via a total match over the closed
kind enumeration, and never assigns the reserved schema-compilation code
`invalid_schema` to any instance-level failure kind. -/
theorem classifier_matches_taxonomy :
    (∀ k : ValidationErrorKind, codeOfKind k = taxonomyCode k) ∧
    (∀ k : ValidationErrorKind, codeOfKind k ≠ "invalid_schema") :=
  ⟨fun k => by cases k <;> rfl,
   fun k => by cases k <;> decide⟩

/-- C2: when schema compilation fails, validation returns exactly one issue,
with path "/", code `invalid_schema`, whose message contains the compilation
failure reason; the result is identical for every instance and the instance
is never evaluated. -/
theorem compile_failure_single_issue
    (ev : Evaluator) (schema : Value) (e : String)
    (h : ev.compile schema = .error e) (inst : Value) (mask : Bool) :
    validate_internal ev inst schema mask =
      .error [{ path := "/",
                message := "Schema compilation error: " ++ e,
                code := "invalid_schema" }] ∧
    strContains ("Schema compilation error: " ++ e) e = true ∧
    (∀ inst₂ : Value, validate_internal ev inst₂ schema mask =
        validate_internal ev inst schema mask) := by
  refine ⟨?_, strContains_append_right _ e, ?_⟩
  · unfold validate_internal
    rw [h]
  · intro inst₂
    unfold validate_internal
    rw [h]

/-- C2 witness: instantiated at the always-failing sample evaluator. -/
theorem compile_failure_single_issue_witness :
    badSchemaEvaluator.compile Value.null = .error "schema is not an object" ∧
    validate_internal badSchemaEvaluator Value.null Value.null false =
      .error [{ path := "/",
                message := "Schema compilation error: " ++ "schema is not an object",
                code := "invalid_schema" }] :=
  ⟨rfl, (compile_failure_single_issue badSchemaEvaluator Value.null
      "schema is not an object" rfl Value.null false).1⟩

/-- C3: for a successfully compiled schema, validation succeeds exactly when
the evaluator raised zero failures, and every failure result carries a
non-empty issue list. -/
theorem success_iff_zero_failures
    (ev : Evaluator) (schema : Value) (run : Value → List ValidationError)
    (h : ev.compile schema = .ok run) (inst : Value) (mask : Bool) :
    (validate_internal ev inst schema mask = .ok () ↔ run inst = []) ∧
    (∀ issues, validate_internal ev inst schema mask = .error issues →
      issues ≠ []) := by
  cases hL : run inst with
  | nil =>
      rw [validate_internal_ok_nil_eq ev inst schema mask run h hL]
      exact ⟨by simp, fun issues hI => Except.noConfusion hI⟩
  | cons e es =>
      rw [validate_internal_ok_cons_eq ev inst schema mask run h e es hL]
      constructor
      · constructor
        · intro hcon
          exact Except.noConfusion hcon
        · intro hcon
          exact List.noConfusion hcon
      · intro issues hI
        cases hI
        simp

/-- C3 witness: instantiated at the zero-failure sample evaluator. -/
theorem success_iff_zero_failures_witness :
    okEvaluator.compile Value.null = .ok (fun _ => []) ∧
    (validate_internal okEvaluator Value.null Value.null false = .ok () ↔
      ([] : List ValidationError) = []) :=
  ⟨rfl, (success_iff_zero_failures okEvaluator Value.null (fun _ => [])
      rfl Value.null false).1⟩

/-- C4: for a compiled schema the returned issue list is exactly the
evaluator's failure list mapped one-to-one, in the evaluator's traversal
order — one issue per raised failure, with the classifier code and the
failure's own path, no re-sorting and no deduplication. -/
theorem issues_one_per_failure_in_order
    (ev : Evaluator) (schema : Value) (run : Value → List ValidationError)
    (h : ev.compile schema = .ok run) (inst : Value) (mask : Bool)
    (hne : run inst ≠ []) :
    validate_internal ev inst schema mask =
      .error ((run inst).map (fun error =>
        { path := error.instance_path,
          message := if mask then error.masked else error.rendered,
          code := codeOfKind error.kind })) := by
  cases hL : run inst with
  | nil => exact absurd hL hne
  | cons e es => exact validate_internal_ok_cons_eq ev inst schema mask run h e es hL

/-- C4 witness: the spec's two-violation example — exactly two issues, at
`/name` with `invalid_type` and at `/age` with `too_small`, in evaluator
order. -/
theorem issues_one_per_failure_in_order_witness :
    [typeErr, minErr] ≠ [] ∧
    validate_internal nameAgeEvaluator nameAgeInstance Value.null false =
      .error unmaskedIssues :=
  ⟨List.cons_ne_nil _ _,
   issues_one_per_failure_in_order nameAgeEvaluator Value.null
     (fun _ => [typeErr, minErr]) rfl nameAgeInstance false
     (List.cons_ne_nil _ _)⟩

/-- C5: the masking flag affects only message text: masked and unmasked runs
agree on success versus failure, and on failure produce issue lists of the
same length with pointwise identical path and code. -/
theorem masking_preserves_path_and_code
    (ev : Evaluator) (inst schema : Value) :
    (validate_internal ev inst schema true = .ok () ↔
      validate_internal ev inst schema false = .ok ()) ∧
    (∀ l₁ l₂, validate_internal ev inst schema true = .error l₁ →
      validate_internal ev inst schema false = .error l₂ →
      l₁.length = l₂.length ∧ l₁.map pathAndCode = l₂.map pathAndCode) := by
  cases hc : ev.compile schema with
  | error e =>
      rw [validate_internal_error_eq ev inst schema true e hc,
        validate_internal_error_eq ev inst schema false e hc]
      refine ⟨Iff.rfl, ?_⟩
      intro l₁ l₂ h₁ h₂
      cases h₁
      cases h₂
      exact ⟨rfl, rfl⟩
  | ok run =>
      cases hL : run inst with
      | nil =>
          rw [validate_internal_ok_nil_eq ev inst schema true run hc hL,
            validate_internal_ok_nil_eq ev inst schema false run hc hL]
          exact ⟨Iff.rfl, fun l₁ l₂ h₁ h₂ => Except.noConfusion h₁⟩
      | cons e es =>
          rw [validate_internal_ok_cons_eq ev inst schema true run hc e es hL,
            validate_internal_ok_cons_eq ev inst schema false run hc e es hL]
          constructor
          · exact iff_of_false (fun hcon => Except.noConfusion hcon)
              (fun hcon => Except.noConfusion hcon)
          · intro l₁ l₂ h₁ h₂
            cases h₁
            cases h₂
            refine ⟨by simp, ?_⟩
            simp only [List.map_map]
            rfl

/-- C5 witness: the two-failure sample evaluator, masked versus unmasked. -/
theorem masking_preserves_path_and_code_witness :
    validate_internal nameAgeEvaluator nameAgeInstance Value.null true =
      .error maskedIssues ∧
    validate_internal nameAgeEvaluator nameAgeInstance Value.null false =
      .error unmaskedIssues ∧
    maskedIssues.map pathAndCode = unmaskedIssues.map pathAndCode :=
  ⟨rfl, rfl,
   ((masking_preserves_path_and_code nameAgeEvaluator nameAgeInstance
      Value.null).2 maskedIssues unmaskedIssues rfl rfl).2⟩

/-- C6: with masking on, every issue message is the evaluator's masked
rendering; under the evaluator capability assumed by the spec — masked
renderings never embed the instance literal V — no returned message contains
V.  (The unmasked run may contain it, as the witness shows.) -/
theorem masked_messages_never_contain_value
    (ev : Evaluator) (schema inst : Value) (V : String)
    (run : Value → List ValidationError)
    (hc : ev.compile schema = .ok run)
    (hmask : ∀ err ∈ run inst, strContains err.masked V = false) :
    ∀ issues, validate_internal ev inst schema true = .error issues →
      ∀ issue ∈ issues, strContains issue.message V = false := by
  intro issues hI issue hmem
  cases hL : run inst with
  | nil =>
      rw [validate_internal_ok_nil_eq ev inst schema true run hc hL] at hI
      exact Except.noConfusion hI
  | cons e es =>
      rw [validate_internal_ok_cons_eq ev inst schema true run hc e es hL] at hI
      rw [hL] at hmask
      cases hI
      obtain ⟨err, herr, heq⟩ := List.mem_map.mp hmem
      subst heq
      exact hmask err herr

/-- C6 witness: at the two-failure sample evaluator with V = "123", the
masked run leaks nothing while the unmasked rendering contains V. -/
theorem masked_messages_never_contain_value_witness :
    (∀ err ∈ [typeErr, minErr], strContains err.masked "123" = false) ∧
    (∀ issue ∈ maskedIssues, strContains issue.message "123" = false) ∧
    strContains typeErr.rendered "123" = true :=
  ⟨by decide,
   fun issue h =>
     masked_messages_never_contain_value nameAgeEvaluator Value.null
       nameAgeInstance "123" (fun _ => [typeErr, minErr]) rfl (by decide)
       maskedIssues rfl issue h,
   by decide⟩

/-- C7: leaving the mask option unspecified at the boundary gives exactly the
same result as passing `false` explicitly — the option defaults to false. -/
theorem default_mask_is_false
    (ev : Evaluator) (schema_js instance_js : JsValue) :
    validate ev schema_js instance_js none =
      validate ev schema_js instance_js (some false) := rfl

/-- C8: a malformed boundary input is signalled through the native error
channel as a plain string — a shape distinct from any serialized issue
list — never converted into a ValidationIssue, and no compilation or
validation runs (the result is independent of the evaluator). -/
theorem boundary_error_uses_native_channel
    (ev : Evaluator) (schema_js instance_js : JsValue) (m : Option Bool) :
    (∀ e, from_value schema_js = .error e →
        validate ev schema_js instance_js m =
          some (.error (.jstr ("Schema deserialization error: " ++ e))) ∧
        ∀ ev₂ : Evaluator, validate ev₂ schema_js instance_js m =
          validate ev schema_js instance_js m) ∧
    (∀ v e, from_value schema_js = .ok v → from_value instance_js = .error e →
        validate ev schema_js instance_js m =
          some (.error (.jstr ("Instance deserialization error: " ++ e))) ∧
        ∀ ev₂ : Evaluator, validate ev₂ schema_js instance_js m =
          validate ev schema_js instance_js m) ∧
    (∀ s issues, JsValue.jstr s ≠ issuesToJs issues) := by
  refine ⟨?_, ?_, ?_⟩
  · intro e he
    constructor
    · unfold validate
      rw [he]
    · intro ev₂
      unfold validate
      rw [he]
  · intro v e hv he
    constructor
    · unfold validate
      rw [hv, he]
    · intro ev₂
      unfold validate
      rw [hv, he]
  · intro s issues h
    exact JsValue.noConfusion h

/-- C8 witness: a junk schema input yields the plain-string schema
deserialization error. -/
theorem boundary_error_uses_native_channel_witness :
    from_value (JsValue.junk "unsupported host value") =
      .error "unsupported host value" ∧
    validate okEvaluator (JsValue.junk "unsupported host value")
        (JsValue.jval Value.null) none =
      some (.error (.jstr ("Schema deserialization error: " ++
        "unsupported host value"))) :=
  ⟨rfl,
   ((boundary_error_uses_native_channel okEvaluator
       (JsValue.junk "unsupported host value") (JsValue.jval Value.null)
       none).1 "unsupported host value" rfl).1⟩

/-- C9: the boundary validate function returns a value to the caller on every
input, well-formed or malformed: no failure path panics, and in particular
the unwrap of the issue-list serialization never fails. -/
theorem validate_never_panics
    (ev : Evaluator) (schema_js instance_js : JsValue) (m : Option Bool) :
    (validate ev schema_js instance_js m).isSome = true := by
  unfold validate
  cases hs : from_value schema_js with
  | error e => rfl
  | ok schema =>
      cases hi : from_value instance_js with
      | error e => rfl
      | ok inst =>
          dsimp only
          cases hv : validate_internal ev inst schema (m.getD false) with
          | ok u => rfl
          | error errors => rfl

/-- C10: the boundary deserializes the schema before the instance: when both
are malformed, the schema deserialization error is returned and the instance
error never surfaces. -/
theorem schema_deserialized_before_instance
    (ev : Evaluator) (schema_js instance_js : JsValue) (m : Option Bool)
    (e₁ e₂ : String)
    (h₁ : from_value schema_js = .error e₁)
    (h₂ : from_value instance_js = .error e₂) :
    validate ev schema_js instance_js m =
      some (.error (.jstr ("Schema deserialization error: " ++ e₁))) := by
  unfold validate
  rw [h₁]

/-- C10 witness: both inputs junk — the schema error wins. -/
theorem schema_deserialized_before_instance_witness :
    from_value (JsValue.junk "bad schema") = .error "bad schema" ∧
    from_value (JsValue.junk "bad instance") = .error "bad instance" ∧
    validate okEvaluator (JsValue.junk "bad schema")
        (JsValue.junk "bad instance") none =
      some (.error (.jstr ("Schema deserialization error: " ++ "bad schema"))) :=
  ⟨rfl, rfl,
   schema_deserialized_before_instance okEvaluator (JsValue.junk "bad schema")
     (JsValue.junk "bad instance") none "bad schema" "bad instance" rfl rfl⟩
